import Mathlib

/-!
Verification of the startup-cofounder-ai collaboration pipeline.

Shallow embedding of the sequential multi-agent workflow of
`src/workflows/collaboration.py` and the three agents of `src/agents/`:
a Strategy stage, a Technical stage and a Marketing stage, each of which
builds an instruction from the idea and the prior stages' outputs and
invokes an external text generator, followed by a pure compile step that
assembles the final report.  The external LLM is modelled as a function
from (system prompt, user prompt) to `Option String` (`none` = the call
failed); all prompt and template texts are transcribed verbatim from the
Python sources.
-/

namespace StartupCoFounder

/-- External text generator collaborator (the `ChatGroq` client): given the
system role description and the user instruction it either produces text or
fails (`none`, standing for a raised exception). -/
abbrev Generator : Type := String → String → Option String

/-- Python string truthiness of an optional string argument, as used by
`if strategy_context:` in the agents: `None` and `""` are falsy, every other
string is truthy. -/
def strTruthy : Option String → Bool
  | none => false
  | some s => !(s == "")

/-! ### Strategy agent (`src/agents/strategy_agent.py`) -/

/-- The Strategy agent holds its own LLM client (`self.llm`). -/
structure StrategyAgent where
  llm : Generator

/-- System prompt set in `StrategyAgent.__init__`. -/
def StrategyAgent.system_prompt : String :=
  "You are an experienced CEO and business strategist with 20+ years of experience in startup advisory. \n\nYour expertise includes:\n- Business model design and validation\n- Market analysis and competitive positioning\n- Revenue strategy and growth planning\n- Risk assessment and mitigation\n- Strategic planning and execution\n\nWhen analyzing a startup idea, you provide:\n1. **Business Model Analysis**: How the business will work\n2. **Market Opportunity**: Target market size and potential\n3. **Competitive Landscape**: Key competitors and differentiation\n4. **Revenue Streams**: How the business will make money\n5. **Strategic Recommendations**: Key actions and priorities\n6. **Risk Assessment**: Potential challenges and mitigation strategies\n\nBe thorough, analytical, and provide actionable insights. Use clear structure and bullet points for readability."

/-- Text before the interpolated idea in the strategy user prompt. -/
def StrategyAgent.user_pre : String :=
  "Analyze this startup idea comprehensively:\n\n**Startup Idea:** "

/-- Text after the interpolated idea in the strategy user prompt. -/
def StrategyAgent.user_tail : String :=
  "\n\nProvide a detailed strategic analysis covering:\n1. Business Model & Value Proposition\n2. Target Market & Customer Segments\n3. Competitive Analysis\n4. Revenue Model & Pricing Strategy\n5. Key Success Factors\n6. Potential Risks & Mitigation\n7. Strategic Recommendations & Next Steps\n\nBe specific and actionable in your recommendations."

/-- The user instruction built by `StrategyAgent.analyze_startup_idea`. -/
def StrategyAgent.user_prompt (startup_idea : String) : String :=
  StrategyAgent.user_pre ++ startup_idea ++ StrategyAgent.user_tail

/-- Method `StrategyAgent.analyze_startup_idea`: one LLM call with the system
prompt and the built instruction; the response is returned unmodified. -/
def StrategyAgent.analyze_startup_idea (a : StrategyAgent) (startup_idea : String) :
    Option String :=
  a.llm StrategyAgent.system_prompt (StrategyAgent.user_prompt startup_idea)

/-! ### Technical agent (`src/agents/technical_agent.py`) -/

/-- The Technical agent holds its own LLM client (`self.llm`). -/
structure TechnicalAgent where
  llm : Generator

/-- System prompt set in `TechnicalAgent.__init__`. -/
def TechnicalAgent.system_prompt : String :=
  "You are an experienced CTO and technical architect with 15+ years in software development and system design.\n\nYour expertise includes:\n- Technology stack selection and architecture design\n- Scalability and performance optimization\n- Development timeline and resource estimation\n- Technical risk assessment and mitigation\n- DevOps, security, and infrastructure planning\n- Cost-effective technical solutions\n\n**IMPORTANT - Collaborative Approach:**\nYou will receive business strategy insights from the Strategy Agent. Your job is to:\n1. **Read and understand** the business requirements carefully\n2. **Reference specific business needs** in your recommendations\n3. **Align technical decisions** with business goals, budget, and timeline\n4. **Explain WHY** each technical choice supports the business strategy\n\nWhen analyzing, provide:\n1. **Recommended Tech Stack**: Specific technologies with justifications tied to business needs\n2. **System Architecture**: High-level design that supports the business model\n3. **Development Roadmap**: Phased approach aligned with business priorities\n4. **Resource Requirements**: Team size, skills, and budget estimates\n5. **Technical Risks**: Challenges and mitigation strategies\n6. **Scalability Plan**: How the system will grow with the business\n\nAlways connect your technical recommendations back to the business strategy. \nFor example: \"Given the target of busy professionals mentioned in the strategy, \nwe'll prioritize mobile-first design and quick load times under 2 seconds.\"\n"

/-- Collaborative-mode prompt text before the interpolated strategy context
(ends with the labeled BUSINESS STRATEGY ANALYSIS section header). -/
def TechnicalAgent.collab_pre : String :=
  "Based on the business strategy analysis below, provide comprehensive technical recommendations.\n\n**BUSINESS STRATEGY ANALYSIS:**\n"

/-- Collaborative-mode prompt text between the strategy context and the idea. -/
def TechnicalAgent.collab_mid : String :=
  "\n\n**ORIGINAL STARTUP IDEA:**\n"

/-- Collaborative-mode prompt text after the interpolated idea. -/
def TechnicalAgent.collab_tail : String :=
  "\n\nNow, as the CTO, provide technical analysis that ALIGNS with the business strategy above. \n\nStructure your response as:\n\n## 1. Technical Strategy Overview\n(How your technical approach supports the business goals)\n\n## 2. Recommended Technology Stack\n(Specific technologies with justifications linked to business needs)\n- Frontend:\n- Backend:\n- Database:\n- Infrastructure:\n- AI/ML (if applicable):\n\n## 3. System Architecture\n(High-level design that supports the business model)\n\n## 4. Development Roadmap\n(Phased approach aligned with business priorities and timeline)\n- Phase 1 (MVP):\n- Phase 2 (Scale):\n- Phase 3 (Advanced):\n\n## 5. Team & Resource Requirements\n(Based on the business strategy and timeline)\n\n## 6. Technical Risks & Mitigation\n(Specific to this business model and market)\n\n## 7. Cost Estimates\n(Infrastructure and development costs aligned with business budget)\n\n## 8. Scalability & Performance Strategy\n(How we'll handle growth based on business projections)\n\n**Remember:** Reference specific points from the business strategy in your recommendations!"

/-- Standalone-mode prompt text before the interpolated idea. -/
def TechnicalAgent.standalone_pre : String :=
  "Analyze the technical requirements for this startup idea:\n\n**STARTUP IDEA:**\n"

/-- Standalone-mode prompt text after the interpolated idea. -/
def TechnicalAgent.standalone_tail : String :=
  "\n\nProvide comprehensive technical recommendations covering:\n1. Technology Stack\n2. System Architecture\n3. Development Roadmap\n4. Resource Requirements\n5. Technical Risks\n6. Cost Estimates\n7. Scalability Plan"

/-- Instruction built by `analyze_technical_requirements`: the branch on
`if strategy_context:` selects the collaborative template when the context
argument is truthy and the standalone template otherwise. -/
def TechnicalAgent.build_prompt (startup_idea : String) (strategy_context : Option String) :
    String :=
  if strTruthy strategy_context then
    TechnicalAgent.collab_pre ++ strategy_context.getD "" ++ TechnicalAgent.collab_mid ++
      startup_idea ++ TechnicalAgent.collab_tail
  else
    TechnicalAgent.standalone_pre ++ startup_idea ++ TechnicalAgent.standalone_tail

/-- Method `TechnicalAgent.analyze_technical_requirements` (default
`strategy_context=None`): one LLM call with the built instruction. -/
def TechnicalAgent.analyze_technical_requirements (a : TechnicalAgent)
    (startup_idea : String) (strategy_context : Option String) : Option String :=
  a.llm TechnicalAgent.system_prompt (TechnicalAgent.build_prompt startup_idea strategy_context)

/-! ### Marketing agent (`src/agents/marketing_agent.py`) -/

/-- The Marketing agent holds its own LLM client (`self.llm`). -/
structure MarketingAgent where
  llm : Generator

/-- System prompt set in `MarketingAgent.__init__`. -/
def MarketingAgent.system_prompt : String :=
  "You are an experienced CMO and marketing strategist with 15+ years in brand building, customer acquisition, and growth marketing.\n\nYour expertise includes:\n- Brand positioning and messaging\n- Customer acquisition strategy (paid and organic)\n- Content marketing and storytelling\n- Channel strategy and optimization\n- Growth hacking and viral marketing\n- Marketing budget allocation and ROI\n\n**CRITICAL - Collaborative Mindset:**\nYou work closely with the Strategy Agent (CEO) and Technical Agent (CTO). Your marketing plans must:\n\n1. **Align with Business Strategy**: \n   - Target the exact customer segments identified\n   - Support the revenue model and pricing\n   - Match the timeline and growth goals\n   \n2. **Work with Technical Constraints**:\n   - Market what can actually be built\n   - Time campaigns with product launch dates\n   - Consider platform limitations (web vs mobile vs both)\n   \n3. **Create Cohesion**:\n   - Reference specific points from strategy and tech analyses\n   - Show how marketing supports both business and technical plans\n   - Build bridges between different aspects of the business\n\nWhen creating marketing strategy, provide:\n1. **Brand Positioning**: How we'll position in the market (based on competitive analysis)\n2. **Target Audience Strategy**: Specific segments with acquisition tactics\n3. **Marketing Channels**: Prioritized based on budget, timeline, and platform\n4. **Content Strategy**: What we'll create and why\n5. **Go-to-Market Plan**: Phased approach aligned with product development\n6. **Budget Allocation**: How to spend limited resources effectively\n7. **Success Metrics**: KPIs that matter for this specific business\n\nAlways reference the strategy and technical context in your recommendations!\n"

/-- Full-collaboration prompt text before the interpolated strategy context
(ends with the labeled CEO'S BUSINESS STRATEGY section header). -/
def MarketingAgent.full_pre : String :=
  "You are the CMO. Read the analyses from your CEO (Strategy) and CTO (Technical) below, then create a marketing strategy that aligns with both.\n\n**CEO'S BUSINESS STRATEGY:**\n"

/-- Full-collaboration prompt text between the strategy and technical contexts
(the labeled CTO'S TECHNICAL PLAN section header). -/
def MarketingAgent.full_mid1 : String :=
  "\n\n**CTO'S TECHNICAL PLAN:**\n"

/-- Full-collaboration prompt text between the technical context and the idea. -/
def MarketingAgent.full_mid2 : String :=
  "\n\n**ORIGINAL STARTUP IDEA:**\n"

/-- Full-collaboration prompt text after the interpolated idea. -/
def MarketingAgent.full_tail : String :=
  "\n\nNow, create a comprehensive marketing strategy that:\n- Targets the customers identified by the CEO\n- Works within the budget and timeline from business strategy\n- Aligns with the technical platform and launch plan from CTO\n- Creates a cohesive go-to-market approach\n\nStructure your response as:\n\n## 1. Brand Positioning & Messaging\n(Based on competitive analysis and target market from strategy)\n\n## 2. Target Audience Strategy\n(Specific segments with acquisition tactics for each)\n- Primary Segment:\n- Secondary Segment:\n- Acquisition Channels for Each:\n\n## 3. Marketing Channel Strategy\n(Prioritized channels based on budget, platform, and timeline)\n- Phase 1 (Pre-Launch):\n- Phase 2 (Launch):\n- Phase 3 (Growth):\n\n## 4. Content & Creative Strategy\n(What content we'll create and why)\n\n## 5. Go-to-Market Timeline\n(Aligned with product development milestones from CTO)\n\n## 6. Budget Allocation\n(How to allocate marketing budget effectively)\n\n## 7. Key Messaging & Copy\n(Sample taglines, value propositions, ad copy)\n\n## 8. Success Metrics & KPIs\n(Specific metrics for this business model)\n\n## 9. Launch Campaign Plan\n(Detailed plan for launch week/month)\n\n**IMPORTANT:** Reference specific points from both the Strategy and Technical analyses throughout your recommendations. Show how marketing connects business goals with technical capabilities!"

/-- Strategy-only prompt text before the interpolated strategy context. -/
def MarketingAgent.strat_pre : String :=
  "Based on the business strategy below, create a marketing strategy:\n\n**BUSINESS STRATEGY:**\n"

/-- Strategy-only prompt text between the strategy context and the idea. -/
def MarketingAgent.strat_mid : String :=
  "\n\n**STARTUP IDEA:**\n"

/-- Strategy-only prompt text after the interpolated idea. -/
def MarketingAgent.strat_tail : String :=
  "\n\nCreate comprehensive marketing strategy that aligns with the business goals above."

/-- Standalone-mode prompt text before the interpolated idea. -/
def MarketingAgent.standalone_pre : String :=
  "Create a comprehensive marketing strategy for:\n\n**STARTUP IDEA:**\n"

/-- Standalone-mode prompt text after the interpolated idea. -/
def MarketingAgent.standalone_tail : String :=
  "\n\nInclude brand positioning, target audience, channels, content strategy, and go-to-market plan."

/-- Instruction built by `create_marketing_strategy`: the branches on
`if strategy_context and technical_context:` / `elif strategy_context:`
select the full, strategy-only or standalone template by Python string
truthiness of the two context arguments. -/
def MarketingAgent.build_prompt (startup_idea : String)
    (strategy_context technical_context : Option String) : String :=
  if strTruthy strategy_context && strTruthy technical_context then
    MarketingAgent.full_pre ++ strategy_context.getD "" ++ MarketingAgent.full_mid1 ++
      technical_context.getD "" ++ MarketingAgent.full_mid2 ++ startup_idea ++
      MarketingAgent.full_tail
  else if strTruthy strategy_context then
    MarketingAgent.strat_pre ++ strategy_context.getD "" ++ MarketingAgent.strat_mid ++
      startup_idea ++ MarketingAgent.strat_tail
  else
    MarketingAgent.standalone_pre ++ startup_idea ++ MarketingAgent.standalone_tail

/-- Method `MarketingAgent.create_marketing_strategy` (defaults
`strategy_context=None`, `technical_context=None`): one LLM call with the
built instruction. -/
def MarketingAgent.create_marketing_strategy (a : MarketingAgent)
    (startup_idea : String) (strategy_context technical_context : Option String) :
    Option String :=
  a.llm MarketingAgent.system_prompt
    (MarketingAgent.build_prompt startup_idea strategy_context technical_context)

/-! ### Shared state and workflow (`src/workflows/collaboration.py`) -/

/-- The `AgentState` TypedDict threaded through the LangGraph workflow: the
input idea, the three agent outputs, the final report and a step marker.
At runtime it is a dict with exactly these six string-valued keys. -/
structure AgentState where
  startup_idea : String
  strategy_analysis : String
  technical_analysis : String
  marketing_strategy : String
  final_report : String
  current_step : String

/-- The state as the runtime dict it is in Python: an association list from
key name to string value, in declaration order of the TypedDict. -/
def AgentState.toDict (state : AgentState) : List (String × String) :=
  [("startup_idea", state.startup_idea),
   ("strategy_analysis", state.strategy_analysis),
   ("technical_analysis", state.technical_analysis),
   ("marketing_strategy", state.marketing_strategy),
   ("final_report", state.final_report),
   ("current_step", state.current_step)]

/-- The `initial_state` dict built inside `analyze_startup`. -/
def initial_state (startup_idea : String) : AgentState :=
  { startup_idea := startup_idea
    strategy_analysis := ""
    technical_analysis := ""
    marketing_strategy := ""
    final_report := ""
    current_step := "Starting" }

/-- The workflow object holding the three agent instances created in
`StartupCoFounderWorkflow.__init__`. -/
structure StartupCoFounderWorkflow where
  strategy_agent : StrategyAgent
  technical_agent : TechnicalAgent
  marketing_agent : MarketingAgent

/-- Node `strategy_agent` (`_run_strategy_agent`): runs the Strategy agent on
the idea and, on success, writes `strategy_analysis` and the step marker. A
failed generator call propagates (`none`). -/
def StartupCoFounderWorkflow._run_strategy_agent (w : StartupCoFounderWorkflow)
    (state : AgentState) : Option AgentState :=
  match w.strategy_agent.analyze_startup_idea state.startup_idea with
  | none => none
  | some strategy_analysis =>
      some { state with
              strategy_analysis := strategy_analysis
              current_step := "Strategy Complete" }

/-- Node `technical_agent` (`_run_technical_agent`): runs the Technical agent
on the idea and the recorded `strategy_analysis` and, on success, writes
`technical_analysis` and the step marker. -/
def StartupCoFounderWorkflow._run_technical_agent (w : StartupCoFounderWorkflow)
    (state : AgentState) : Option AgentState :=
  match w.technical_agent.analyze_technical_requirements state.startup_idea
      (some state.strategy_analysis) with
  | none => none
  | some technical_analysis =>
      some { state with
              technical_analysis := technical_analysis
              current_step := "Technical Complete" }

/-- Node `marketing_agent` (`_run_marketing_agent`): runs the Marketing agent
on the idea and the recorded `strategy_analysis` and `technical_analysis`
and, on success, writes `marketing_strategy` and the step marker. -/
def StartupCoFounderWorkflow._run_marketing_agent (w : StartupCoFounderWorkflow)
    (state : AgentState) : Option AgentState :=
  match w.marketing_agent.create_marketing_strategy state.startup_idea
      (some state.strategy_analysis) (some state.technical_analysis) with
  | none => none
  | some marketing_strategy =>
      some { state with
              marketing_strategy := marketing_strategy
              current_step := "Marketing Complete" }

/-- Pure compile function underlying the `compile_report` node: the f-string
of `_compile_final_report`, with the idea and the three stage outputs
interpolated in fixed order into the fixed template. -/
def compileReport (idea A B C : String) : String :=
  "\n# 🚀 COMPREHENSIVE STARTUP ANALYSIS\n## Generated by AI Co-Founder Team\n\n---\n\n## 📋 STARTUP IDEA\n"
    ++ idea
    ++ "\n\n---\n\n## 🎯 BUSINESS STRATEGY ANALYSIS\n### By Strategy Agent (CEO)\n\n"
    ++ A
    ++ "\n\n---\n\n## 💻 TECHNICAL ARCHITECTURE & PLAN\n### By Technical Agent (CTO)\n\n"
    ++ B
    ++ "\n\n---\n\n## 📢 MARKETING STRATEGY & GO-TO-MARKET\n### By Marketing Agent (CMO)\n\n"
    ++ C
    ++ "\n\n---\n\n## ✅ NEXT STEPS & ACTION ITEMS\n\nBased on the collaborative analysis above, here are the immediate priorities:\n\n1. **Week 1-2**: Validate assumptions with target customers (from Strategy)\n2. **Week 3-4**: Set up technical infrastructure (from Technical)\n3. **Week 4-6**: Begin pre-launch marketing activities (from Marketing)\n4. **Month 2**: Start MVP development\n5. **Month 3**: Beta testing and launch preparation\n\n---\n\n*This report was generated by a multi-agent AI system where each agent built upon the insights of previous agents to create a cohesive, unified strategy.*\n"

/-- Node `compile_report` (`_compile_final_report`): writes `final_report`
from the recorded idea and the three recorded outputs, and the step marker.
No generator is involved. -/
def StartupCoFounderWorkflow._compile_final_report (state : AgentState) : AgentState :=
  { state with
      final_report := compileReport state.startup_idea state.strategy_analysis
        state.technical_analysis state.marketing_strategy
      current_step := "Complete" }

/-! ### The compiled linear graph, instrumented with the generator calls -/

/-- One generator invocation: the system prompt and the user instruction the
stage sent to the LLM. -/
structure GenCall where
  system : String
  prompt : String

/-- The generator call the Strategy node makes from a given state. -/
def strategy_call (state : AgentState) : GenCall :=
  ⟨StrategyAgent.system_prompt, StrategyAgent.user_prompt state.startup_idea⟩

/-- The generator call the Technical node makes from a given state. -/
def technical_call (state : AgentState) : GenCall :=
  ⟨TechnicalAgent.system_prompt,
   TechnicalAgent.build_prompt state.startup_idea (some state.strategy_analysis)⟩

/-- The generator call the Marketing node makes from a given state. -/
def marketing_call (state : AgentState) : GenCall :=
  ⟨MarketingAgent.system_prompt,
   MarketingAgent.build_prompt state.startup_idea (some state.strategy_analysis)
     (some state.technical_analysis)⟩

/-- The compiled linear graph `strategy_agent → technical_agent →
marketing_agent → compile_report → END` (`_build_workflow` followed by
`self.workflow.invoke`), instrumented: together with the final state (or
`none` on the first failure, which aborts the remainder of the run) it
returns the list of generator calls made, in order.  No node catches an
error. -/
def StartupCoFounderWorkflow.invoke_traced (w : StartupCoFounderWorkflow)
    (state : AgentState) : Option AgentState × List GenCall :=
  match w._run_strategy_agent state with
  | none => (none, [strategy_call state])
  | some st1 =>
      match w._run_technical_agent st1 with
      | none => (none, [strategy_call state, technical_call st1])
      | some st2 =>
          match w._run_marketing_agent st2 with
          | none => (none, [strategy_call state, technical_call st1, marketing_call st2])
          | some st3 =>
              (some (StartupCoFounderWorkflow._compile_final_report st3),
               [strategy_call state, technical_call st1, marketing_call st2])

/-- Entry point `StartupCoFounderWorkflow.analyze_startup`: builds the fresh
initial state and invokes the compiled workflow, returning the final state
dict (or the propagated failure). -/
def StartupCoFounderWorkflow.analyze_startup (w : StartupCoFounderWorkflow)
    (startup_idea : String) : Option AgentState :=
  (w.invoke_traced (initial_state startup_idea)).1

/-- The generator calls made (in order) by one `analyze_startup` run. -/
def StartupCoFounderWorkflow.analyze_startup_calls (w : StartupCoFounderWorkflow)
    (startup_idea : String) : List GenCall :=
  (w.invoke_traced (initial_state startup_idea)).2

/-! ### Substring occurrence counting (for the report-content properties) -/

/-- Number of positions of `l` at which `pat` occurs as a contiguous block. -/
def countOccsAux (pat : List Char) : List Char → Nat
  | [] => if pat.isEmpty then 1 else 0
  | c :: rest =>
      (if pat.isPrefixOf (c :: rest) then 1 else 0) + countOccsAux pat rest

/-- Number of occurrences of `pat` as a contiguous substring of `s`. -/
def countOccs (pat s : String) : Nat :=
  countOccsAux pat.data s.data

/-! ### Named report template pieces (for the report-structure properties) -/

/-- Fixed report text before the interpolated idea. -/
def report_pre : String :=
  "\n# 🚀 COMPREHENSIVE STARTUP ANALYSIS\n## Generated by AI Co-Founder Team\n\n---\n\n## 📋 STARTUP IDEA\n"

/-- Fixed section header over the strategy output. -/
def strategy_section_header : String := "## 🎯 BUSINESS STRATEGY ANALYSIS"

/-- Fixed report text between the idea and the strategy output. -/
def strategy_section : String :=
  "\n\n---\n\n## 🎯 BUSINESS STRATEGY ANALYSIS\n### By Strategy Agent (CEO)\n\n"

/-- Fixed section header over the technical output. -/
def technical_section_header : String := "## 💻 TECHNICAL ARCHITECTURE & PLAN"

/-- Fixed report text between the strategy output and the technical output. -/
def technical_section : String :=
  "\n\n---\n\n## 💻 TECHNICAL ARCHITECTURE & PLAN\n### By Technical Agent (CTO)\n\n"

/-- Fixed section header over the marketing output. -/
def marketing_section_header : String := "## 📢 MARKETING STRATEGY & GO-TO-MARKET"

/-- Fixed report text between the technical output and the marketing output. -/
def marketing_section : String :=
  "\n\n---\n\n## 📢 MARKETING STRATEGY & GO-TO-MARKET\n### By Marketing Agent (CMO)\n\n"

/-- First literal next-steps line item. -/
def next_steps_item1 : String :=
  "1. **Week 1-2**: Validate assumptions with target customers (from Strategy)\n"

/-- Second literal next-steps line item. -/
def next_steps_item2 : String :=
  "2. **Week 3-4**: Set up technical infrastructure (from Technical)\n"

/-- Third literal next-steps line item. -/
def next_steps_item3 : String :=
  "3. **Week 4-6**: Begin pre-launch marketing activities (from Marketing)\n"

/-- Fourth literal next-steps line item. -/
def next_steps_item4 : String :=
  "4. **Month 2**: Start MVP development\n"

/-- Fifth literal next-steps line item. -/
def next_steps_item5 : String :=
  "5. **Month 3**: Beta testing and launch preparation\n"

/-- Fixed static next-steps block closing the report: a closed constant, so it
does not depend on any input of the run. -/
def next_steps_block : String :=
  "\n\n---\n\n## ✅ NEXT STEPS & ACTION ITEMS\n\nBased on the collaborative analysis above, here are the immediate priorities:\n\n1. **Week 1-2**: Validate assumptions with target customers (from Strategy)\n2. **Week 3-4**: Set up technical infrastructure (from Technical)\n3. **Week 4-6**: Begin pre-launch marketing activities (from Marketing)\n4. **Month 2**: Start MVP development\n5. **Month 3**: Beta testing and launch preparation\n\n---\n\n*This report was generated by a multi-agent AI system where each agent built upon the insights of previous agents to create a cohesive, unified strategy.*\n"

/-! ### Stub generators for concrete runs -/

/-- A generator that always succeeds with the fixed text `out`. -/
def stub_generator (out : String) : Generator := fun _ _ => some out

/-- A generator whose call always fails. -/
def failing_generator : Generator := fun _ _ => none

/-- The workflow of the end-to-end scenario: the Strategy stage's generator
returns "S", the Technical stage's "T", the Marketing stage's "M". -/
def scenario_workflow : StartupCoFounderWorkflow :=
  { strategy_agent := ⟨stub_generator "S"⟩
    technical_agent := ⟨stub_generator "T"⟩
    marketing_agent := ⟨stub_generator "M"⟩ }

/-- A workflow whose Technical stage generator fails. -/
def tech_failing_workflow : StartupCoFounderWorkflow :=
  { strategy_agent := ⟨stub_generator "S"⟩
    technical_agent := ⟨failing_generator⟩
    marketing_agent := ⟨stub_generator "M"⟩ }

/-- A workflow whose Strategy stage generator succeeds with the empty string. -/
def empty_strategy_workflow : StartupCoFounderWorkflow :=
  { strategy_agent := ⟨stub_generator ""⟩
    technical_agent := ⟨stub_generator "T"⟩
    marketing_agent := ⟨stub_generator "M"⟩ }

end StartupCoFounder

namespace StartupCoFounder

theorem countOccsAux_pos_iff (pat l : List Char) :
    0 < countOccsAux pat l ↔ ∃ s t, l = s ++ pat ++ t := by
  induction l with
  | nil =>
      by_cases hp : pat = []
      · subst hp
        simp [countOccsAux]
      · simp [countOccsAux, List.isEmpty_iff, hp]
  | cons c rest ih =>
      constructor
      · intro h
        by_cases hpre : pat.isPrefixOf (c :: rest)
        · rcases List.isPrefixOf_iff_prefix.mp hpre with ⟨t, ht⟩
          exact ⟨[], t, by simp [ht.symm]⟩
        · simp [countOccsAux, hpre] at h
          rcases ih.mp h with ⟨s, t, hst⟩
          exact ⟨c :: s, t, by simp [hst]⟩
      · rintro ⟨s, t, hst⟩
        cases s with
        | nil =>
            have hpre : pat.isPrefixOf (c :: rest) := by
              apply List.isPrefixOf_iff_prefix.mpr
              exact ⟨t, by simpa using hst.symm⟩
            simp [countOccsAux, hpre]
        | cons c' s' =>
            have hc : c = c' ∧ rest = s' ++ pat ++ t := by
              simpa using hst
            have : 0 < countOccsAux pat rest := ih.mpr ⟨s', t, hc.2⟩
            simp [countOccsAux]
            omega

theorem countOccs_pos_iff (pat s : String) :
    0 < countOccs pat s ↔ ∃ p q : String, s = p ++ pat ++ q := by
  unfold countOccs
  rw [countOccsAux_pos_iff]
  constructor
  · rintro ⟨a, b, h⟩
    refine ⟨⟨a⟩, ⟨b⟩, String.ext ?_⟩
    simpa [String.data_append] using h
  · rintro ⟨p, q, h⟩
    exact ⟨p.data, q.data, by rw [h]; simp [String.data_append]⟩

theorem strategy_step_some {w : StartupCoFounderWorkflow} {st st' : AgentState} :
    w._run_strategy_agent st = some st' ↔
      ∃ s, w.strategy_agent.analyze_startup_idea st.startup_idea = some s ∧
        st' = { st with strategy_analysis := s, current_step := "Strategy Complete" } := by
  unfold StartupCoFounderWorkflow._run_strategy_agent
  cases h : w.strategy_agent.analyze_startup_idea st.startup_idea with
  | none => simp
  | some s => simp [eq_comm]

theorem technical_step_some {w : StartupCoFounderWorkflow} {st st' : AgentState} :
    w._run_technical_agent st = some st' ↔
      ∃ s, w.technical_agent.analyze_technical_requirements st.startup_idea
            (some st.strategy_analysis) = some s ∧
        st' = { st with technical_analysis := s, current_step := "Technical Complete" } := by
  unfold StartupCoFounderWorkflow._run_technical_agent
  cases h : w.technical_agent.analyze_technical_requirements st.startup_idea
      (some st.strategy_analysis) with
  | none => simp
  | some s => simp [eq_comm]

theorem marketing_step_some {w : StartupCoFounderWorkflow} {st st' : AgentState} :
    w._run_marketing_agent st = some st' ↔
      ∃ s, w.marketing_agent.create_marketing_strategy st.startup_idea
            (some st.strategy_analysis) (some st.technical_analysis) = some s ∧
        st' = { st with marketing_strategy := s, current_step := "Marketing Complete" } := by
  unfold StartupCoFounderWorkflow._run_marketing_agent
  cases h : w.marketing_agent.create_marketing_strategy st.startup_idea
      (some st.strategy_analysis) (some st.technical_analysis) with
  | none => simp
  | some s => simp [eq_comm]

end StartupCoFounder

namespace StartupCoFounder

set_option maxRecDepth 10000

theorem analyze_startup_some_iff {w : StartupCoFounderWorkflow} {idea : String}
    {st : AgentState} :
    w.analyze_startup idea = some st ↔
      ∃ s1 s2 s3,
        w.strategy_agent.analyze_startup_idea idea = some s1 ∧
        w.technical_agent.analyze_technical_requirements idea (some s1) = some s2 ∧
        w.marketing_agent.create_marketing_strategy idea (some s1) (some s2) = some s3 ∧
        st = { startup_idea := idea, strategy_analysis := s1, technical_analysis := s2,
               marketing_strategy := s3, final_report := compileReport idea s1 s2 s3,
               current_step := "Complete" } := by
  unfold StartupCoFounderWorkflow.analyze_startup StartupCoFounderWorkflow.invoke_traced
    StartupCoFounderWorkflow._run_strategy_agent StartupCoFounderWorkflow._run_technical_agent
    StartupCoFounderWorkflow._run_marketing_agent StartupCoFounderWorkflow._compile_final_report
    initial_state
  cases h1 : w.strategy_agent.analyze_startup_idea idea with
  | none => simp [h1]
  | some s1 =>
      simp only [h1]
      cases h2 : w.technical_agent.analyze_technical_requirements idea (some s1) with
      | none => simp [h1, h2]
      | some s2 =>
          simp only [h2]
          cases h3 : w.marketing_agent.create_marketing_strategy idea (some s1) (some s2) with
          | none => simp [h2, h3]
          | some s3 =>
              simp only [h3]
              constructor
              · intro h
                injection h with e
                exact ⟨s1, s2, s3, rfl, h2, h3, e.symm⟩
              · rintro ⟨s1', s2', s3', hg1, hg2, hg3, hst⟩
                injection hg1 with e1
                subst e1
                rw [h2] at hg2
                injection hg2 with e2
                subst e2
                rw [h3] at hg3
                injection hg3 with e3
                subst e3
                subst hst
                rfl

theorem analyze_startup_calls_of_success {w : StartupCoFounderWorkflow} {idea : String}
    {st : AgentState} (h : w.analyze_startup idea = some st) :
    w.analyze_startup_calls idea =
      [⟨StrategyAgent.system_prompt, StrategyAgent.user_prompt idea⟩,
       ⟨TechnicalAgent.system_prompt,
        TechnicalAgent.build_prompt idea (some st.strategy_analysis)⟩,
       ⟨MarketingAgent.system_prompt,
        MarketingAgent.build_prompt idea (some st.strategy_analysis)
          (some st.technical_analysis)⟩] := by
  rcases analyze_startup_some_iff.mp h with ⟨s1, s2, s3, h1, h2, h3, hst⟩
  subst hst
  unfold StartupCoFounderWorkflow.analyze_startup_calls StartupCoFounderWorkflow.invoke_traced
    StartupCoFounderWorkflow._run_strategy_agent StartupCoFounderWorkflow._run_technical_agent
    StartupCoFounderWorkflow._run_marketing_agent initial_state
  simp only [h1, h2, h3]
  rfl

end StartupCoFounder

namespace StartupCoFounder

set_option maxRecDepth 10000

/-- C2: for all strings idea, A, B, C the compiled report is exactly the fixed
prefix, then the idea, then A under the fixed strategy section header, then B
under the fixed technical section header, then C under the fixed marketing
section header, then the fixed static next-steps block of five literal line
items — so idea, A, B and C occur as contiguous substrings, each under its own
fixed header, in the fixed order, and the closing block is a closed constant
that does not depend on any input. -/
theorem compile_report_complete (idea A B C : String) :
    compileReport idea A B C =
      report_pre ++ idea ++ strategy_section ++ A ++ technical_section ++ B ++
        marketing_section ++ C ++ next_steps_block ∧
    strategy_section =
      "\n\n---\n\n" ++ strategy_section_header ++ "\n### By Strategy Agent (CEO)\n\n" ∧
    technical_section =
      "\n\n---\n\n" ++ technical_section_header ++ "\n### By Technical Agent (CTO)\n\n" ∧
    marketing_section =
      "\n\n---\n\n" ++ marketing_section_header ++ "\n### By Marketing Agent (CMO)\n\n" ∧
    next_steps_block =
      "\n\n---\n\n## ✅ NEXT STEPS & ACTION ITEMS\n\nBased on the collaborative analysis above, here are the immediate priorities:\n\n"
        ++ next_steps_item1 ++ next_steps_item2 ++ next_steps_item3 ++ next_steps_item4
        ++ next_steps_item5
        ++ "\n---\n\n*This report was generated by a multi-agent AI system where each agent built upon the insights of previous agents to create a cohesive, unified strategy.*\n" :=
  ⟨rfl, rfl, rfl, rfl, rfl⟩

/-- C6: the compile step is deterministic: any two states that agree on the
idea and the three stage outputs compile to byte-identical final reports (the
output depends on nothing else, and the compile node takes no generator); and
a successful run makes exactly three generator calls — one per stage, none
during compilation. -/
theorem compile_deterministic :
    (∀ s s' : AgentState,
        s.startup_idea = s'.startup_idea →
        s.strategy_analysis = s'.strategy_analysis →
        s.technical_analysis = s'.technical_analysis →
        s.marketing_strategy = s'.marketing_strategy →
        (StartupCoFounderWorkflow._compile_final_report s).final_report =
          (StartupCoFounderWorkflow._compile_final_report s').final_report) ∧
    (∀ (w : StartupCoFounderWorkflow) (idea : String) (st : AgentState),
        w.analyze_startup idea = some st →
        (w.analyze_startup_calls idea).length = 3) := by
  constructor
  · intro s s' h1 h2 h3 h4
    simp only [StartupCoFounderWorkflow._compile_final_report]
    rw [h1, h2, h3, h4]
  · intro w idea st h
    rw [analyze_startup_calls_of_success h]
    rfl

/-- C6 witness: two concrete states sharing the four inputs but differing in
the remaining fields compile to the same final report. -/
theorem compile_deterministic_witness :
    (StartupCoFounderWorkflow._compile_final_report
        ⟨"i", "a", "b", "c", "junk", "x"⟩).final_report =
      (StartupCoFounderWorkflow._compile_final_report
        ⟨"i", "a", "b", "c", "", "y"⟩).final_report :=
  compile_deterministic.1 ⟨"i", "a", "b", "c", "junk", "x"⟩ ⟨"i", "a", "b", "c", "", "y"⟩
    rfl rfl rfl rfl

/-- C7: invoking the Technical stage's instruction builder with no prior
strategy context yields the standalone instruction — a template whose fixed
parts contain no occurrence of "BUSINESS STRATEGY" — while invoking it with a
(truthy, i.e. nonempty) prior context yields the collaborative instruction, in
which the fixed part ending in the labeled section header
"**BUSINESS STRATEGY ANALYSIS:**" immediately precedes the supplied context
text verbatim. -/
theorem technical_context_selection (idea ctx : String) (h : ctx ≠ "") :
    TechnicalAgent.build_prompt idea none =
      TechnicalAgent.standalone_pre ++ idea ++ TechnicalAgent.standalone_tail ∧
    countOccs "BUSINESS STRATEGY" TechnicalAgent.standalone_pre = 0 ∧
    countOccs "BUSINESS STRATEGY" TechnicalAgent.standalone_tail = 0 ∧
    TechnicalAgent.build_prompt idea (some ctx) =
      TechnicalAgent.collab_pre ++ ctx ++ TechnicalAgent.collab_mid ++ idea ++
        TechnicalAgent.collab_tail ∧
    TechnicalAgent.collab_pre =
      "Based on the business strategy analysis below, provide comprehensive technical recommendations.\n\n"
        ++ "**BUSINESS STRATEGY ANALYSIS:**\n" := by
  refine ⟨rfl, rfl, rfl, ?_, rfl⟩
  simp [TechnicalAgent.build_prompt, strTruthy, h]

/-- C7 witness: the collaborative instruction at concrete inputs. -/
theorem technical_context_selection_witness :
    ("s" : String) ≠ "" ∧
    TechnicalAgent.build_prompt "i" (some "s") =
      TechnicalAgent.collab_pre ++ "s" ++ TechnicalAgent.collab_mid ++ "i" ++
        TechnicalAgent.collab_tail :=
  ⟨by decide, (technical_context_selection "i" "s" (by decide)).2.2.2.1⟩


/-- Helper: as soon as the Strategy node has succeeded, the second generator
call of the run is the Technical stage's, whatever happens later. -/
theorem calls_get1_of_strategy {w : StartupCoFounderWorkflow} {st0 st1 : AgentState}
    (h : w._run_strategy_agent st0 = some st1) :
    (w.invoke_traced st0).2.get? 1 = some (technical_call st1) := by
  unfold StartupCoFounderWorkflow.invoke_traced
  simp only [h]
  cases h2 : w._run_technical_agent st1 with
  | none => rfl
  | some st2 =>
      have h' : ∀ r : Option AgentState,
          ((match r with
            | none => ((none : Option AgentState),
                [strategy_call st0, technical_call st1, marketing_call st2])
            | some st3 =>
                (some (StartupCoFounderWorkflow._compile_final_report st3),
                 [strategy_call st0, technical_call st1, marketing_call st2])) :
              Option AgentState × List GenCall).2.get? 1 =
            some (technical_call st1) := by
        intro r
        cases r <;> rfl
      exact h' (w._run_marketing_agent st2)

/-- C10: the Technical and Marketing stages select their template by Python
string truthiness, so an empty prior context selects the standalone
instruction exactly as if no context had been passed: the technical builder on
an empty strategy context equals the builder on no context; the marketing
builder on an empty strategy context (whatever the technical context) equals
the builder on no context at all, the standalone template, whose fixed parts
contain no labeled prior-output section; and in a pipeline run whose Strategy
generator returns the empty string, the Technical stage's recorded call
carries that standalone instruction even though the pipeline did pass the
prior output. -/
theorem empty_context_standalone (idea t0 : String) :
    TechnicalAgent.build_prompt idea (some "") = TechnicalAgent.build_prompt idea none ∧
    MarketingAgent.build_prompt idea (some "") (some t0) =
      MarketingAgent.build_prompt idea none none ∧
    MarketingAgent.build_prompt idea (some "") (some t0) =
      MarketingAgent.standalone_pre ++ idea ++ MarketingAgent.standalone_tail ∧
    countOccs "BUSINESS STRATEGY" MarketingAgent.standalone_pre = 0 ∧
    countOccs "BUSINESS STRATEGY" MarketingAgent.standalone_tail = 0 ∧
    countOccs "TECHNICAL PLAN" MarketingAgent.standalone_pre = 0 ∧
    countOccs "TECHNICAL PLAN" MarketingAgent.standalone_tail = 0 ∧
    (∀ w : StartupCoFounderWorkflow,
        w.strategy_agent.analyze_startup_idea idea = some "" →
        (w.analyze_startup_calls idea).get? 1 =
          some ⟨TechnicalAgent.system_prompt, TechnicalAgent.build_prompt idea (some "")⟩) := by
  refine ⟨rfl, rfl, rfl, rfl, rfl, rfl, rfl, ?_⟩
  intro w hw
  have hstep : w._run_strategy_agent (initial_state idea) =
      some { initial_state idea with
              strategy_analysis := ""
              current_step := "Strategy Complete" } := by
    unfold StartupCoFounderWorkflow._run_strategy_agent initial_state
    simp [hw]
  exact calls_get1_of_strategy hstep

/-- C10 witness: the run whose Strategy generator returns the empty string. -/
theorem empty_context_standalone_witness :
    empty_strategy_workflow.strategy_agent.analyze_startup_idea "i" = some "" ∧
    (empty_strategy_workflow.analyze_startup_calls "i").get? 1 =
      some ⟨TechnicalAgent.system_prompt, TechnicalAgent.build_prompt "i" (some "")⟩ :=
  ⟨rfl, (empty_context_standalone "i" "t").2.2.2.2.2.2.2 empty_strategy_workflow rfl⟩

/-- C5 counterexample: in the exact scenario of the claim — idea "X" and the
generators stubbed to "S", "T", "M" — the final report contains "X" twice (the
fixed template text, e.g. "NEXT STEPS", also contains the letter X), not
exactly once, so the "each exactly once" part of the claim is false. -/
theorem scenario_not_exactly_once :
    (StartupCoFounderWorkflow.analyze_startup scenario_workflow "X").map
      (fun st => countOccs "X" st.final_report) = some 2 ∧ (2 : Nat) ≠ 1 :=
  ⟨by rfl, by decide⟩

/-- C5 (amended): in the scenario of the claim the final report decomposes as
the fixed template pieces around "X", "S", "T", "M" in that relative order,
closed by the fixed five-item action-items block — each input occurs there at
least once and in order, though not exactly once, since the fixed template
text itself contains further occurrences of these letters. -/
theorem scenario_final_report_structure :
    (StartupCoFounderWorkflow.analyze_startup scenario_workflow "X").map
      AgentState.final_report =
    some (report_pre ++ "X" ++ strategy_section ++ "S" ++ technical_section ++ "T" ++
      marketing_section ++ "M" ++ next_steps_block) := by
  rfl

/-- C1 counterexample: with stubbed generators and idea "X", the mapping
returned by a successful `analyze_startup` has six keys — `startup_idea` and
`current_step` in addition to the four of the claim — so it is not a mapping
with exactly four keys. -/
theorem analyze_startup_keys_counterexample :
    (StartupCoFounderWorkflow.analyze_startup scenario_workflow "X").map
      (fun st => st.toDict.map Prod.fst) =
      some ["startup_idea", "strategy_analysis", "technical_analysis",
            "marketing_strategy", "final_report", "current_step"] ∧
    (["startup_idea", "strategy_analysis", "technical_analysis",
      "marketing_strategy", "final_report", "current_step"] : List String) ≠
      ["strategy_analysis", "technical_analysis", "marketing_strategy", "final_report"] :=
  ⟨by rfl, by decide⟩

/-- C1 (amended): every successful `analyze_startup` call returns the full
state mapping with exactly six string-valued keys, in fixed order: the four of
the claim (each present) plus `startup_idea` and `current_step`. -/
theorem analyze_startup_result_keys (w : StartupCoFounderWorkflow) (idea : String)
    (st : AgentState) (_h : w.analyze_startup idea = some st) :
    st.toDict.map Prod.fst =
      ["startup_idea", "strategy_analysis", "technical_analysis",
       "marketing_strategy", "final_report", "current_step"] ∧
    "strategy_analysis" ∈ st.toDict.map Prod.fst ∧
    "technical_analysis" ∈ st.toDict.map Prod.fst ∧
    "marketing_strategy" ∈ st.toDict.map Prod.fst ∧
    "final_report" ∈ st.toDict.map Prod.fst := by
  refine ⟨rfl, ?_, ?_, ?_, ?_⟩ <;> simp [AgentState.toDict]

/-- C1 witness: the concrete stubbed run, its six keys listed. -/
theorem analyze_startup_result_keys_witness :
    StartupCoFounderWorkflow.analyze_startup scenario_workflow "X" =
      some ⟨"X", "S", "T", "M", compileReport "X" "S" "T" "M", "Complete"⟩ ∧
    (⟨"X", "S", "T", "M", compileReport "X" "S" "T" "M", "Complete"⟩ :
        AgentState).toDict.map Prod.fst =
      ["startup_idea", "strategy_analysis", "technical_analysis",
       "marketing_strategy", "final_report", "current_step"] :=
  ⟨rfl, (analyze_startup_result_keys scenario_workflow "X" _ rfl).1⟩


/-- C3: fail-fast: if stage 1 succeeded and the Generator call of stage 2 (the
Technical stage) fails, the run terminates with the propagated failure — no
`marketing_strategy` and no final report are produced (`analyze_startup`
returns `none`, nothing is caught or recovered) — and the recorded generator
calls are exactly the Strategy and Technical ones: the Marketing stage's
generator is never invoked. -/
theorem technical_failure_aborts (w : StartupCoFounderWorkflow) (idea s1 : String)
    (h1 : w.strategy_agent.llm StrategyAgent.system_prompt
            (StrategyAgent.user_prompt idea) = some s1)
    (h2 : w.technical_agent.llm TechnicalAgent.system_prompt
            (TechnicalAgent.build_prompt idea (some s1)) = none) :
    w.analyze_startup idea = none ∧
    w.analyze_startup_calls idea =
      [⟨StrategyAgent.system_prompt, StrategyAgent.user_prompt idea⟩,
       ⟨TechnicalAgent.system_prompt, TechnicalAgent.build_prompt idea (some s1)⟩] ∧
    ∀ c ∈ w.analyze_startup_calls idea, c.system ≠ MarketingAgent.system_prompt := by
  have hstep : w._run_strategy_agent (initial_state idea) =
      some { initial_state idea with
              strategy_analysis := s1
              current_step := "Strategy Complete" } := by
    unfold StartupCoFounderWorkflow._run_strategy_agent StrategyAgent.analyze_startup_idea
      initial_state
    simp [h1]
  have htech : w._run_technical_agent
      { initial_state idea with
          strategy_analysis := s1
          current_step := "Strategy Complete" } = none := by
    unfold StartupCoFounderWorkflow._run_technical_agent
      TechnicalAgent.analyze_technical_requirements initial_state
    simp [h2]
  have hcalls : w.analyze_startup_calls idea =
      [⟨StrategyAgent.system_prompt, StrategyAgent.user_prompt idea⟩,
       ⟨TechnicalAgent.system_prompt, TechnicalAgent.build_prompt idea (some s1)⟩] := by
    unfold StartupCoFounderWorkflow.analyze_startup_calls StartupCoFounderWorkflow.invoke_traced
    simp only [hstep, htech]
    rfl
  refine ⟨?_, hcalls, ?_⟩
  · unfold StartupCoFounderWorkflow.analyze_startup StartupCoFounderWorkflow.invoke_traced
    simp only [hstep, htech]
  · rw [hcalls]
    intro c hc
    simp only [List.mem_cons, List.not_mem_nil, or_false] at hc
    rcases hc with rfl | rfl
    · show StrategyAgent.system_prompt ≠ MarketingAgent.system_prompt
      decide
    · show TechnicalAgent.system_prompt ≠ MarketingAgent.system_prompt
      decide

/-- C3 witness: the concrete workflow whose Technical generator fails. -/
theorem technical_failure_aborts_witness :
    tech_failing_workflow.strategy_agent.llm StrategyAgent.system_prompt
        (StrategyAgent.user_prompt "X") = some "S" ∧
    tech_failing_workflow.technical_agent.llm TechnicalAgent.system_prompt
        (TechnicalAgent.build_prompt "X" (some "S")) = none ∧
    tech_failing_workflow.analyze_startup "X" = none :=
  ⟨rfl, rfl, (technical_failure_aborts tech_failing_workflow "X" "S" rfl rfl).1⟩

/-- C4: in every successful run the generator calls are exactly, in order: the
Strategy stage on the idea alone; the Technical stage on the idea and the
Strategy stage's recorded output as its only prior context; the Marketing
stage on the idea, the Strategy output and the Technical output, in that
order. -/
theorem run_context_ordering (w : StartupCoFounderWorkflow) (idea : String)
    (st : AgentState) (h : w.analyze_startup idea = some st) :
    w.analyze_startup_calls idea =
      [⟨StrategyAgent.system_prompt, StrategyAgent.user_prompt idea⟩,
       ⟨TechnicalAgent.system_prompt,
        TechnicalAgent.build_prompt idea (some st.strategy_analysis)⟩,
       ⟨MarketingAgent.system_prompt,
        MarketingAgent.build_prompt idea (some st.strategy_analysis)
          (some st.technical_analysis)⟩] :=
  analyze_startup_calls_of_success h

/-- C4 witness: the calls of the concrete stubbed run. -/
theorem run_context_ordering_witness :
    StartupCoFounderWorkflow.analyze_startup scenario_workflow "X" =
      some ⟨"X", "S", "T", "M", compileReport "X" "S" "T" "M", "Complete"⟩ ∧
    StartupCoFounderWorkflow.analyze_startup_calls scenario_workflow "X" =
      [⟨StrategyAgent.system_prompt, StrategyAgent.user_prompt "X"⟩,
       ⟨TechnicalAgent.system_prompt, TechnicalAgent.build_prompt "X" (some "S")⟩,
       ⟨MarketingAgent.system_prompt,
        MarketingAgent.build_prompt "X" (some "S") (some "T")⟩] :=
  ⟨rfl, run_context_ordering scenario_workflow "X" _ rfl⟩

/-- C8: write-once invariant of the shared record: along a successful run each
stage entry is empty until its stage completes (all later entries of the fresh
initial state are empty, and stay empty through every earlier stage), and once
a stage has written its entry no later step overwrites it (each later node and
the compile step preserve it); the run's result is the compile step applied to
the state after the three stages. -/
theorem write_once_invariant (w : StartupCoFounderWorkflow) (idea : String)
    (st1 st2 st3 : AgentState)
    (h1 : w._run_strategy_agent (initial_state idea) = some st1)
    (h2 : w._run_technical_agent st1 = some st2)
    (h3 : w._run_marketing_agent st2 = some st3) :
    ((initial_state idea).strategy_analysis = "" ∧
     (initial_state idea).technical_analysis = "" ∧
     (initial_state idea).marketing_strategy = "" ∧
     (initial_state idea).final_report = "" ∧
     st1.technical_analysis = "" ∧ st1.marketing_strategy = "" ∧ st1.final_report = "" ∧
     st2.marketing_strategy = "" ∧ st2.final_report = "" ∧
     st3.final_report = "") ∧
    (st2.strategy_analysis = st1.strategy_analysis ∧
     st3.strategy_analysis = st1.strategy_analysis ∧
     st3.technical_analysis = st2.technical_analysis ∧
     (StartupCoFounderWorkflow._compile_final_report st3).strategy_analysis =
       st1.strategy_analysis ∧
     (StartupCoFounderWorkflow._compile_final_report st3).technical_analysis =
       st2.technical_analysis ∧
     (StartupCoFounderWorkflow._compile_final_report st3).marketing_strategy =
       st3.marketing_strategy) ∧
    w.analyze_startup idea = some (StartupCoFounderWorkflow._compile_final_report st3) := by
  rcases strategy_step_some.mp h1 with ⟨s1, hg1, e1⟩
  rcases technical_step_some.mp h2 with ⟨s2, hg2, e2⟩
  rcases marketing_step_some.mp h3 with ⟨s3, hg3, e3⟩
  subst e1
  subst e2
  subst e3
  refine ⟨⟨rfl, rfl, rfl, rfl, rfl, rfl, rfl, rfl, rfl, rfl⟩,
    ⟨rfl, rfl, rfl, rfl, rfl, rfl⟩, ?_⟩
  unfold StartupCoFounderWorkflow.analyze_startup StartupCoFounderWorkflow.invoke_traced
  simp only [h1, h2, h3]

/-- C8 witness: the intermediate states of the concrete stubbed run. -/
theorem write_once_invariant_witness :
    scenario_workflow._run_strategy_agent (initial_state "X") =
      some ⟨"X", "S", "", "", "", "Strategy Complete"⟩ ∧
    scenario_workflow._run_technical_agent ⟨"X", "S", "", "", "", "Strategy Complete"⟩ =
      some ⟨"X", "S", "T", "", "", "Technical Complete"⟩ ∧
    scenario_workflow._run_marketing_agent ⟨"X", "S", "T", "", "", "Technical Complete"⟩ =
      some ⟨"X", "S", "T", "M", "", "Marketing Complete"⟩ ∧
    scenario_workflow.analyze_startup "X" =
      some (StartupCoFounderWorkflow._compile_final_report
        ⟨"X", "S", "T", "M", "", "Marketing Complete"⟩) :=
  ⟨rfl, rfl, rfl,
   (write_once_invariant scenario_workflow "X" _ _ _ rfl rfl rfl).2.2⟩

/-- C9: frame property of the idea: no stage node and not the compile step
ever writes `startup_idea` — each transition preserves it — so the idea in the
final state of every successful run equals the idea supplied by the caller. -/
theorem startup_idea_frame :
    (∀ (w : StartupCoFounderWorkflow) (st st' : AgentState),
        w._run_strategy_agent st = some st' → st'.startup_idea = st.startup_idea) ∧
    (∀ (w : StartupCoFounderWorkflow) (st st' : AgentState),
        w._run_technical_agent st = some st' → st'.startup_idea = st.startup_idea) ∧
    (∀ (w : StartupCoFounderWorkflow) (st st' : AgentState),
        w._run_marketing_agent st = some st' → st'.startup_idea = st.startup_idea) ∧
    (∀ st : AgentState,
        (StartupCoFounderWorkflow._compile_final_report st).startup_idea =
          st.startup_idea) ∧
    (∀ (w : StartupCoFounderWorkflow) (idea : String) (st : AgentState),
        w.analyze_startup idea = some st → st.startup_idea = idea) := by
  refine ⟨?_, ?_, ?_, fun st => rfl, ?_⟩
  · intro w st st' h
    rcases strategy_step_some.mp h with ⟨s, _, e⟩
    subst e
    rfl
  · intro w st st' h
    rcases technical_step_some.mp h with ⟨s, _, e⟩
    subst e
    rfl
  · intro w st st' h
    rcases marketing_step_some.mp h with ⟨s, _, e⟩
    subst e
    rfl
  · intro w idea st h
    rcases analyze_startup_some_iff.mp h with ⟨s1, s2, s3, _, _, _, e⟩
    subst e
    rfl

/-- C9 witness: the idea of the concrete stubbed run's final state. -/
theorem startup_idea_frame_witness :
    (⟨"X", "S", "T", "M", compileReport "X" "S" "T" "M", "Complete"⟩ :
        AgentState).startup_idea = "X" :=
  startup_idea_frame.2.2.2.2 scenario_workflow "X"
    ⟨"X", "S", "T", "M", compileReport "X" "S" "T" "M", "Complete"⟩ rfl

end StartupCoFounder
